import Mathlib

/-!
# Verification of the RMG rollback-netplay core

A shallow embedding of the rollback-netplay core of the RMG repository
(`Source/RMG-Core/Netplay.cpp`, `Source/RMG-Core/RollbackNetplay.cpp`,
`Source/RMG-Core/Emulation.cpp`), together with theorems settling the
specification claims about it.

Machine integers are modelled as `Nat` (with explicit `% 2^32` where the
source relies on wrap-around); fallible C++ functions return `Option` or a
`Bool` success flag together with the updated state; calls into external
components (the mupen64plus core, zlib, GGPO) are modelled as explicit
oracle parameters so that every control path of the embedded function is
the image of a control path of the source.
-/

namespace RMG

/-! ## Generic bit-level helpers -/

/-- `testBit` pushed through an `if`. -/
theorem testBit_ite (c : Prop) [Decidable c] (a b i : Nat) :
    (if c then a else b).testBit i = if c then a.testBit i else b.testBit i := by
  split <;> rfl

/-- A single-bit mask test is a `testBit`. -/
theorem and_two_pow_ne (b k i : Nat) (hk : k = 2 ^ i) :
    (b &&& k ≠ 0) ↔ b.testBit i = true := by
  subst hk
  rw [Nat.and_two_pow]
  simp

/-- Bits of a number below `2 ^ 14` vanish from position 14 on. -/
theorem testBit_high (x i : Nat) (hx : x < 16384) (hi : 14 ≤ i) : x.testBit i = false := by
  apply Nat.testBit_lt_two_pow
  calc x < 16384 := hx
    _ = 2 ^ 14 := by norm_num
    _ ≤ 2 ^ i := Nat.pow_le_pow_right (by norm_num) hi

/-! ## Canonical button bits

From `Source/RMG-Core/Emulation.cpp`, the `BTN_*` defines (lines 188-201).
-/

def BTN_A : Nat := 1 <<< 0
def BTN_B : Nat := 1 <<< 1
def BTN_Z : Nat := 1 <<< 2
def BTN_START : Nat := 1 <<< 3
def BTN_DPAD_UP : Nat := 1 <<< 4
def BTN_DPAD_DOWN : Nat := 1 <<< 5
def BTN_DPAD_LEFT : Nat := 1 <<< 6
def BTN_DPAD_RIGHT : Nat := 1 <<< 7
def BTN_SHOULDER_L : Nat := 1 <<< 8
def BTN_SHOULDER_R : Nat := 1 <<< 9
def BTN_C_UP : Nat := 1 <<< 10
def BTN_C_DOWN : Nat := 1 <<< 11
def BTN_C_LEFT : Nat := 1 <<< 12
def BTN_C_RIGHT : Nat := 1 <<< 13

/-- Native (mupen64plus) button word → canonical button word.
Embeds the mapping block of `GetControllerInputs`
(`Emulation.cpp` lines 250-263): each native mask that is held contributes
the corresponding canonical `BTN_*` bit. -/
def encodeButtons (buttons : Nat) : Nat :=
  (if buttons &&& 0x0001 ≠ 0 then BTN_DPAD_RIGHT else 0) |||
  (if buttons &&& 0x0002 ≠ 0 then BTN_DPAD_LEFT else 0) |||
  (if buttons &&& 0x0004 ≠ 0 then BTN_DPAD_DOWN else 0) |||
  (if buttons &&& 0x0008 ≠ 0 then BTN_DPAD_UP else 0) |||
  (if buttons &&& 0x0010 ≠ 0 then BTN_START else 0) |||
  (if buttons &&& 0x0020 ≠ 0 then BTN_Z else 0) |||
  (if buttons &&& 0x0040 ≠ 0 then BTN_B else 0) |||
  (if buttons &&& 0x0080 ≠ 0 then BTN_A else 0) |||
  (if buttons &&& 0x0100 ≠ 0 then BTN_SHOULDER_R else 0) |||
  (if buttons &&& 0x0200 ≠ 0 then BTN_SHOULDER_L else 0) |||
  (if buttons &&& 0x0400 ≠ 0 then BTN_C_RIGHT else 0) |||
  (if buttons &&& 0x0800 ≠ 0 then BTN_C_LEFT else 0) |||
  (if buttons &&& 0x1000 ≠ 0 then BTN_C_DOWN else 0) |||
  (if buttons &&& 0x2000 ≠ 0 then BTN_C_UP else 0)

/-- Canonical button word → native (mupen64plus) button word.
Embeds the mapping block of `ApplyControllerInputs`
(`Emulation.cpp` lines 293-306). -/
def decodeButtons (ib : Nat) : Nat :=
  (if ib &&& BTN_DPAD_RIGHT ≠ 0 then 0x0001 else 0) |||
  (if ib &&& BTN_DPAD_LEFT ≠ 0 then 0x0002 else 0) |||
  (if ib &&& BTN_DPAD_DOWN ≠ 0 then 0x0004 else 0) |||
  (if ib &&& BTN_DPAD_UP ≠ 0 then 0x0008 else 0) |||
  (if ib &&& BTN_START ≠ 0 then 0x0010 else 0) |||
  (if ib &&& BTN_Z ≠ 0 then 0x0020 else 0) |||
  (if ib &&& BTN_B ≠ 0 then 0x0040 else 0) |||
  (if ib &&& BTN_A ≠ 0 then 0x0080 else 0) |||
  (if ib &&& BTN_SHOULDER_R ≠ 0 then 0x0100 else 0) |||
  (if ib &&& BTN_SHOULDER_L ≠ 0 then 0x0200 else 0) |||
  (if ib &&& BTN_C_RIGHT ≠ 0 then 0x0400 else 0) |||
  (if ib &&& BTN_C_LEFT ≠ 0 then 0x0800 else 0) |||
  (if ib &&& BTN_C_DOWN ≠ 0 then 0x1000 else 0) |||
  (if ib &&& BTN_C_UP ≠ 0 then 0x2000 else 0)

/-! Mask-test lemmas for the fourteen defined bits, one per mask constant. -/

theorem mask0 (x : Nat) : (x &&& 0x0001 ≠ 0) ↔ x.testBit 0 = true := and_two_pow_ne x _ 0 (by norm_num)
theorem mask1 (x : Nat) : (x &&& 0x0002 ≠ 0) ↔ x.testBit 1 = true := and_two_pow_ne x _ 1 (by norm_num)
theorem mask2 (x : Nat) : (x &&& 0x0004 ≠ 0) ↔ x.testBit 2 = true := and_two_pow_ne x _ 2 (by norm_num)
theorem mask3 (x : Nat) : (x &&& 0x0008 ≠ 0) ↔ x.testBit 3 = true := and_two_pow_ne x _ 3 (by norm_num)
theorem mask4 (x : Nat) : (x &&& 0x0010 ≠ 0) ↔ x.testBit 4 = true := and_two_pow_ne x _ 4 (by norm_num)
theorem mask5 (x : Nat) : (x &&& 0x0020 ≠ 0) ↔ x.testBit 5 = true := and_two_pow_ne x _ 5 (by norm_num)
theorem mask6 (x : Nat) : (x &&& 0x0040 ≠ 0) ↔ x.testBit 6 = true := and_two_pow_ne x _ 6 (by norm_num)
theorem mask7 (x : Nat) : (x &&& 0x0080 ≠ 0) ↔ x.testBit 7 = true := and_two_pow_ne x _ 7 (by norm_num)
theorem mask8 (x : Nat) : (x &&& 0x0100 ≠ 0) ↔ x.testBit 8 = true := and_two_pow_ne x _ 8 (by norm_num)
theorem mask9 (x : Nat) : (x &&& 0x0200 ≠ 0) ↔ x.testBit 9 = true := and_two_pow_ne x _ 9 (by norm_num)
theorem mask10 (x : Nat) : (x &&& 0x0400 ≠ 0) ↔ x.testBit 10 = true := and_two_pow_ne x _ 10 (by norm_num)
theorem mask11 (x : Nat) : (x &&& 0x0800 ≠ 0) ↔ x.testBit 11 = true := and_two_pow_ne x _ 11 (by norm_num)
theorem mask12 (x : Nat) : (x &&& 0x1000 ≠ 0) ↔ x.testBit 12 = true := and_two_pow_ne x _ 12 (by norm_num)
theorem mask13 (x : Nat) : (x &&& 0x2000 ≠ 0) ↔ x.testBit 13 = true := and_two_pow_ne x _ 13 (by norm_num)

theorem maskBtnA (x : Nat) : (x &&& BTN_A ≠ 0) ↔ x.testBit 0 = true := and_two_pow_ne x _ 0 (by simp [Nat.shiftLeft_eq, BTN_A])
theorem maskBtnB (x : Nat) : (x &&& BTN_B ≠ 0) ↔ x.testBit 1 = true := and_two_pow_ne x _ 1 (by simp [Nat.shiftLeft_eq, BTN_B])
theorem maskBtnZ (x : Nat) : (x &&& BTN_Z ≠ 0) ↔ x.testBit 2 = true := and_two_pow_ne x _ 2 (by simp [Nat.shiftLeft_eq, BTN_Z])
theorem maskBtnStart (x : Nat) : (x &&& BTN_START ≠ 0) ↔ x.testBit 3 = true := and_two_pow_ne x _ 3 (by simp [Nat.shiftLeft_eq, BTN_START])
theorem maskBtnDU (x : Nat) : (x &&& BTN_DPAD_UP ≠ 0) ↔ x.testBit 4 = true := and_two_pow_ne x _ 4 (by simp [Nat.shiftLeft_eq, BTN_DPAD_UP])
theorem maskBtnDD (x : Nat) : (x &&& BTN_DPAD_DOWN ≠ 0) ↔ x.testBit 5 = true := and_two_pow_ne x _ 5 (by simp [Nat.shiftLeft_eq, BTN_DPAD_DOWN])
theorem maskBtnDL (x : Nat) : (x &&& BTN_DPAD_LEFT ≠ 0) ↔ x.testBit 6 = true := and_two_pow_ne x _ 6 (by simp [Nat.shiftLeft_eq, BTN_DPAD_LEFT])
theorem maskBtnDR (x : Nat) : (x &&& BTN_DPAD_RIGHT ≠ 0) ↔ x.testBit 7 = true := and_two_pow_ne x _ 7 (by simp [Nat.shiftLeft_eq, BTN_DPAD_RIGHT])
theorem maskBtnSL (x : Nat) : (x &&& BTN_SHOULDER_L ≠ 0) ↔ x.testBit 8 = true := and_two_pow_ne x _ 8 (by simp [Nat.shiftLeft_eq, BTN_SHOULDER_L])
theorem maskBtnSR (x : Nat) : (x &&& BTN_SHOULDER_R ≠ 0) ↔ x.testBit 9 = true := and_two_pow_ne x _ 9 (by simp [Nat.shiftLeft_eq, BTN_SHOULDER_R])
theorem maskBtnCU (x : Nat) : (x &&& BTN_C_UP ≠ 0) ↔ x.testBit 10 = true := and_two_pow_ne x _ 10 (by simp [Nat.shiftLeft_eq, BTN_C_UP])
theorem maskBtnCD (x : Nat) : (x &&& BTN_C_DOWN ≠ 0) ↔ x.testBit 11 = true := and_two_pow_ne x _ 11 (by simp [Nat.shiftLeft_eq, BTN_C_DOWN])
theorem maskBtnCL (x : Nat) : (x &&& BTN_C_LEFT ≠ 0) ↔ x.testBit 12 = true := and_two_pow_ne x _ 12 (by simp [Nat.shiftLeft_eq, BTN_C_LEFT])
theorem maskBtnCR (x : Nat) : (x &&& BTN_C_RIGHT ≠ 0) ↔ x.testBit 13 = true := and_two_pow_ne x _ 13 (by simp [Nat.shiftLeft_eq, BTN_C_RIGHT])
/-! Per-bit evaluation of `encodeButtons` and `decodeButtons`: bit `j` of
the output word is the mapped bit of the source word, following the table
of the source (native `0x0001` DPad-R ... `0x2000` C-U). -/

theorem enc_tb0 (b : Nat) : (encodeButtons b).testBit 0 = b.testBit 7 := by
  simp +decide only [encodeButtons, Nat.testBit_or, testBit_ite, mask0, mask1, mask2, mask3, mask4, mask5, mask6, mask7, mask8, mask9, mask10, mask11, mask12, mask13,
    BTN_A, BTN_B, BTN_Z, BTN_START, BTN_DPAD_UP, BTN_DPAD_DOWN, BTN_DPAD_LEFT, BTN_DPAD_RIGHT, BTN_SHOULDER_L, BTN_SHOULDER_R, BTN_C_UP, BTN_C_DOWN, BTN_C_LEFT, BTN_C_RIGHT]
  simp [Nat.testBit_to_div_mod]

theorem enc_tb1 (b : Nat) : (encodeButtons b).testBit 1 = b.testBit 6 := by
  simp +decide only [encodeButtons, Nat.testBit_or, testBit_ite, mask0, mask1, mask2, mask3, mask4, mask5, mask6, mask7, mask8, mask9, mask10, mask11, mask12, mask13,
    BTN_A, BTN_B, BTN_Z, BTN_START, BTN_DPAD_UP, BTN_DPAD_DOWN, BTN_DPAD_LEFT, BTN_DPAD_RIGHT, BTN_SHOULDER_L, BTN_SHOULDER_R, BTN_C_UP, BTN_C_DOWN, BTN_C_LEFT, BTN_C_RIGHT]
  simp [Nat.testBit_to_div_mod]

theorem enc_tb2 (b : Nat) : (encodeButtons b).testBit 2 = b.testBit 5 := by
  simp +decide only [encodeButtons, Nat.testBit_or, testBit_ite, mask0, mask1, mask2, mask3, mask4, mask5, mask6, mask7, mask8, mask9, mask10, mask11, mask12, mask13,
    BTN_A, BTN_B, BTN_Z, BTN_START, BTN_DPAD_UP, BTN_DPAD_DOWN, BTN_DPAD_LEFT, BTN_DPAD_RIGHT, BTN_SHOULDER_L, BTN_SHOULDER_R, BTN_C_UP, BTN_C_DOWN, BTN_C_LEFT, BTN_C_RIGHT]
  simp [Nat.testBit_to_div_mod]

theorem enc_tb3 (b : Nat) : (encodeButtons b).testBit 3 = b.testBit 4 := by
  simp +decide only [encodeButtons, Nat.testBit_or, testBit_ite, mask0, mask1, mask2, mask3, mask4, mask5, mask6, mask7, mask8, mask9, mask10, mask11, mask12, mask13,
    BTN_A, BTN_B, BTN_Z, BTN_START, BTN_DPAD_UP, BTN_DPAD_DOWN, BTN_DPAD_LEFT, BTN_DPAD_RIGHT, BTN_SHOULDER_L, BTN_SHOULDER_R, BTN_C_UP, BTN_C_DOWN, BTN_C_LEFT, BTN_C_RIGHT]
  simp [Nat.testBit_to_div_mod]

theorem enc_tb4 (b : Nat) : (encodeButtons b).testBit 4 = b.testBit 3 := by
  simp +decide only [encodeButtons, Nat.testBit_or, testBit_ite, mask0, mask1, mask2, mask3, mask4, mask5, mask6, mask7, mask8, mask9, mask10, mask11, mask12, mask13,
    BTN_A, BTN_B, BTN_Z, BTN_START, BTN_DPAD_UP, BTN_DPAD_DOWN, BTN_DPAD_LEFT, BTN_DPAD_RIGHT, BTN_SHOULDER_L, BTN_SHOULDER_R, BTN_C_UP, BTN_C_DOWN, BTN_C_LEFT, BTN_C_RIGHT]
  simp [Nat.testBit_to_div_mod]

theorem enc_tb5 (b : Nat) : (encodeButtons b).testBit 5 = b.testBit 2 := by
  simp +decide only [encodeButtons, Nat.testBit_or, testBit_ite, mask0, mask1, mask2, mask3, mask4, mask5, mask6, mask7, mask8, mask9, mask10, mask11, mask12, mask13,
    BTN_A, BTN_B, BTN_Z, BTN_START, BTN_DPAD_UP, BTN_DPAD_DOWN, BTN_DPAD_LEFT, BTN_DPAD_RIGHT, BTN_SHOULDER_L, BTN_SHOULDER_R, BTN_C_UP, BTN_C_DOWN, BTN_C_LEFT, BTN_C_RIGHT]
  simp [Nat.testBit_to_div_mod]

theorem enc_tb6 (b : Nat) : (encodeButtons b).testBit 6 = b.testBit 1 := by
  simp +decide only [encodeButtons, Nat.testBit_or, testBit_ite, mask0, mask1, mask2, mask3, mask4, mask5, mask6, mask7, mask8, mask9, mask10, mask11, mask12, mask13,
    BTN_A, BTN_B, BTN_Z, BTN_START, BTN_DPAD_UP, BTN_DPAD_DOWN, BTN_DPAD_LEFT, BTN_DPAD_RIGHT, BTN_SHOULDER_L, BTN_SHOULDER_R, BTN_C_UP, BTN_C_DOWN, BTN_C_LEFT, BTN_C_RIGHT]
  simp [Nat.testBit_to_div_mod]

theorem enc_tb7 (b : Nat) : (encodeButtons b).testBit 7 = b.testBit 0 := by
  simp +decide only [encodeButtons, Nat.testBit_or, testBit_ite, mask0, mask1, mask2, mask3, mask4, mask5, mask6, mask7, mask8, mask9, mask10, mask11, mask12, mask13,
    BTN_A, BTN_B, BTN_Z, BTN_START, BTN_DPAD_UP, BTN_DPAD_DOWN, BTN_DPAD_LEFT, BTN_DPAD_RIGHT, BTN_SHOULDER_L, BTN_SHOULDER_R, BTN_C_UP, BTN_C_DOWN, BTN_C_LEFT, BTN_C_RIGHT]
  simp [Nat.testBit_to_div_mod]

theorem enc_tb8 (b : Nat) : (encodeButtons b).testBit 8 = b.testBit 9 := by
  simp +decide only [encodeButtons, Nat.testBit_or, testBit_ite, mask0, mask1, mask2, mask3, mask4, mask5, mask6, mask7, mask8, mask9, mask10, mask11, mask12, mask13,
    BTN_A, BTN_B, BTN_Z, BTN_START, BTN_DPAD_UP, BTN_DPAD_DOWN, BTN_DPAD_LEFT, BTN_DPAD_RIGHT, BTN_SHOULDER_L, BTN_SHOULDER_R, BTN_C_UP, BTN_C_DOWN, BTN_C_LEFT, BTN_C_RIGHT]
  simp [Nat.testBit_to_div_mod]

theorem enc_tb9 (b : Nat) : (encodeButtons b).testBit 9 = b.testBit 8 := by
  simp +decide only [encodeButtons, Nat.testBit_or, testBit_ite, mask0, mask1, mask2, mask3, mask4, mask5, mask6, mask7, mask8, mask9, mask10, mask11, mask12, mask13,
    BTN_A, BTN_B, BTN_Z, BTN_START, BTN_DPAD_UP, BTN_DPAD_DOWN, BTN_DPAD_LEFT, BTN_DPAD_RIGHT, BTN_SHOULDER_L, BTN_SHOULDER_R, BTN_C_UP, BTN_C_DOWN, BTN_C_LEFT, BTN_C_RIGHT]
  simp [Nat.testBit_to_div_mod]

theorem enc_tb10 (b : Nat) : (encodeButtons b).testBit 10 = b.testBit 13 := by
  simp +decide only [encodeButtons, Nat.testBit_or, testBit_ite, mask0, mask1, mask2, mask3, mask4, mask5, mask6, mask7, mask8, mask9, mask10, mask11, mask12, mask13,
    BTN_A, BTN_B, BTN_Z, BTN_START, BTN_DPAD_UP, BTN_DPAD_DOWN, BTN_DPAD_LEFT, BTN_DPAD_RIGHT, BTN_SHOULDER_L, BTN_SHOULDER_R, BTN_C_UP, BTN_C_DOWN, BTN_C_LEFT, BTN_C_RIGHT]
  simp [Nat.testBit_to_div_mod]

theorem enc_tb11 (b : Nat) : (encodeButtons b).testBit 11 = b.testBit 12 := by
  simp +decide only [encodeButtons, Nat.testBit_or, testBit_ite, mask0, mask1, mask2, mask3, mask4, mask5, mask6, mask7, mask8, mask9, mask10, mask11, mask12, mask13,
    BTN_A, BTN_B, BTN_Z, BTN_START, BTN_DPAD_UP, BTN_DPAD_DOWN, BTN_DPAD_LEFT, BTN_DPAD_RIGHT, BTN_SHOULDER_L, BTN_SHOULDER_R, BTN_C_UP, BTN_C_DOWN, BTN_C_LEFT, BTN_C_RIGHT]
  simp [Nat.testBit_to_div_mod]

theorem enc_tb12 (b : Nat) : (encodeButtons b).testBit 12 = b.testBit 11 := by
  simp +decide only [encodeButtons, Nat.testBit_or, testBit_ite, mask0, mask1, mask2, mask3, mask4, mask5, mask6, mask7, mask8, mask9, mask10, mask11, mask12, mask13,
    BTN_A, BTN_B, BTN_Z, BTN_START, BTN_DPAD_UP, BTN_DPAD_DOWN, BTN_DPAD_LEFT, BTN_DPAD_RIGHT, BTN_SHOULDER_L, BTN_SHOULDER_R, BTN_C_UP, BTN_C_DOWN, BTN_C_LEFT, BTN_C_RIGHT]
  simp [Nat.testBit_to_div_mod]

theorem enc_tb13 (b : Nat) : (encodeButtons b).testBit 13 = b.testBit 10 := by
  simp +decide only [encodeButtons, Nat.testBit_or, testBit_ite, mask0, mask1, mask2, mask3, mask4, mask5, mask6, mask7, mask8, mask9, mask10, mask11, mask12, mask13,
    BTN_A, BTN_B, BTN_Z, BTN_START, BTN_DPAD_UP, BTN_DPAD_DOWN, BTN_DPAD_LEFT, BTN_DPAD_RIGHT, BTN_SHOULDER_L, BTN_SHOULDER_R, BTN_C_UP, BTN_C_DOWN, BTN_C_LEFT, BTN_C_RIGHT]
  simp [Nat.testBit_to_div_mod]

theorem dec_tb0 (c : Nat) : (decodeButtons c).testBit 0 = c.testBit 7 := by
  simp +decide only [decodeButtons, Nat.testBit_or, testBit_ite, maskBtnA, maskBtnB, maskBtnZ, maskBtnStart, maskBtnDU, maskBtnDD, maskBtnDL, maskBtnDR, maskBtnSL, maskBtnSR, maskBtnCU, maskBtnCD, maskBtnCL, maskBtnCR]
  simp [Nat.testBit_to_div_mod]

theorem dec_tb1 (c : Nat) : (decodeButtons c).testBit 1 = c.testBit 6 := by
  simp +decide only [decodeButtons, Nat.testBit_or, testBit_ite, maskBtnA, maskBtnB, maskBtnZ, maskBtnStart, maskBtnDU, maskBtnDD, maskBtnDL, maskBtnDR, maskBtnSL, maskBtnSR, maskBtnCU, maskBtnCD, maskBtnCL, maskBtnCR]
  simp [Nat.testBit_to_div_mod]

theorem dec_tb2 (c : Nat) : (decodeButtons c).testBit 2 = c.testBit 5 := by
  simp +decide only [decodeButtons, Nat.testBit_or, testBit_ite, maskBtnA, maskBtnB, maskBtnZ, maskBtnStart, maskBtnDU, maskBtnDD, maskBtnDL, maskBtnDR, maskBtnSL, maskBtnSR, maskBtnCU, maskBtnCD, maskBtnCL, maskBtnCR]
  simp [Nat.testBit_to_div_mod]

theorem dec_tb3 (c : Nat) : (decodeButtons c).testBit 3 = c.testBit 4 := by
  simp +decide only [decodeButtons, Nat.testBit_or, testBit_ite, maskBtnA, maskBtnB, maskBtnZ, maskBtnStart, maskBtnDU, maskBtnDD, maskBtnDL, maskBtnDR, maskBtnSL, maskBtnSR, maskBtnCU, maskBtnCD, maskBtnCL, maskBtnCR]
  simp [Nat.testBit_to_div_mod]

theorem dec_tb4 (c : Nat) : (decodeButtons c).testBit 4 = c.testBit 3 := by
  simp +decide only [decodeButtons, Nat.testBit_or, testBit_ite, maskBtnA, maskBtnB, maskBtnZ, maskBtnStart, maskBtnDU, maskBtnDD, maskBtnDL, maskBtnDR, maskBtnSL, maskBtnSR, maskBtnCU, maskBtnCD, maskBtnCL, maskBtnCR]
  simp [Nat.testBit_to_div_mod]

theorem dec_tb5 (c : Nat) : (decodeButtons c).testBit 5 = c.testBit 2 := by
  simp +decide only [decodeButtons, Nat.testBit_or, testBit_ite, maskBtnA, maskBtnB, maskBtnZ, maskBtnStart, maskBtnDU, maskBtnDD, maskBtnDL, maskBtnDR, maskBtnSL, maskBtnSR, maskBtnCU, maskBtnCD, maskBtnCL, maskBtnCR]
  simp [Nat.testBit_to_div_mod]

theorem dec_tb6 (c : Nat) : (decodeButtons c).testBit 6 = c.testBit 1 := by
  simp +decide only [decodeButtons, Nat.testBit_or, testBit_ite, maskBtnA, maskBtnB, maskBtnZ, maskBtnStart, maskBtnDU, maskBtnDD, maskBtnDL, maskBtnDR, maskBtnSL, maskBtnSR, maskBtnCU, maskBtnCD, maskBtnCL, maskBtnCR]
  simp [Nat.testBit_to_div_mod]

theorem dec_tb7 (c : Nat) : (decodeButtons c).testBit 7 = c.testBit 0 := by
  simp +decide only [decodeButtons, Nat.testBit_or, testBit_ite, maskBtnA, maskBtnB, maskBtnZ, maskBtnStart, maskBtnDU, maskBtnDD, maskBtnDL, maskBtnDR, maskBtnSL, maskBtnSR, maskBtnCU, maskBtnCD, maskBtnCL, maskBtnCR]
  simp [Nat.testBit_to_div_mod]

theorem dec_tb8 (c : Nat) : (decodeButtons c).testBit 8 = c.testBit 9 := by
  simp +decide only [decodeButtons, Nat.testBit_or, testBit_ite, maskBtnA, maskBtnB, maskBtnZ, maskBtnStart, maskBtnDU, maskBtnDD, maskBtnDL, maskBtnDR, maskBtnSL, maskBtnSR, maskBtnCU, maskBtnCD, maskBtnCL, maskBtnCR]
  simp [Nat.testBit_to_div_mod]

theorem dec_tb9 (c : Nat) : (decodeButtons c).testBit 9 = c.testBit 8 := by
  simp +decide only [decodeButtons, Nat.testBit_or, testBit_ite, maskBtnA, maskBtnB, maskBtnZ, maskBtnStart, maskBtnDU, maskBtnDD, maskBtnDL, maskBtnDR, maskBtnSL, maskBtnSR, maskBtnCU, maskBtnCD, maskBtnCL, maskBtnCR]
  simp [Nat.testBit_to_div_mod]

theorem dec_tb10 (c : Nat) : (decodeButtons c).testBit 10 = c.testBit 13 := by
  simp +decide only [decodeButtons, Nat.testBit_or, testBit_ite, maskBtnA, maskBtnB, maskBtnZ, maskBtnStart, maskBtnDU, maskBtnDD, maskBtnDL, maskBtnDR, maskBtnSL, maskBtnSR, maskBtnCU, maskBtnCD, maskBtnCL, maskBtnCR]
  simp [Nat.testBit_to_div_mod]

theorem dec_tb11 (c : Nat) : (decodeButtons c).testBit 11 = c.testBit 12 := by
  simp +decide only [decodeButtons, Nat.testBit_or, testBit_ite, maskBtnA, maskBtnB, maskBtnZ, maskBtnStart, maskBtnDU, maskBtnDD, maskBtnDL, maskBtnDR, maskBtnSL, maskBtnSR, maskBtnCU, maskBtnCD, maskBtnCL, maskBtnCR]
  simp [Nat.testBit_to_div_mod]

theorem dec_tb12 (c : Nat) : (decodeButtons c).testBit 12 = c.testBit 11 := by
  simp +decide only [decodeButtons, Nat.testBit_or, testBit_ite, maskBtnA, maskBtnB, maskBtnZ, maskBtnStart, maskBtnDU, maskBtnDD, maskBtnDL, maskBtnDR, maskBtnSL, maskBtnSR, maskBtnCU, maskBtnCD, maskBtnCL, maskBtnCR]
  simp [Nat.testBit_to_div_mod]

theorem dec_tb13 (c : Nat) : (decodeButtons c).testBit 13 = c.testBit 10 := by
  simp +decide only [decodeButtons, Nat.testBit_or, testBit_ite, maskBtnA, maskBtnB, maskBtnZ, maskBtnStart, maskBtnDU, maskBtnDD, maskBtnDL, maskBtnDR, maskBtnSL, maskBtnSR, maskBtnCU, maskBtnCD, maskBtnCL, maskBtnCR]
  simp [Nat.testBit_to_div_mod]

/-- The canonical word produced by `encodeButtons` uses only the 14 defined bits. -/
theorem encodeButtons_lt (b : Nat) : encodeButtons b < 16384 := by
  have h : encodeButtons b < 2 ^ 14 := by
    simp only [encodeButtons]
    repeat' apply Nat.or_lt_two_pow
    all_goals split <;> norm_num [Nat.shiftLeft_eq, BTN_A, BTN_B, BTN_Z, BTN_START, BTN_DPAD_UP, BTN_DPAD_DOWN, BTN_DPAD_LEFT, BTN_DPAD_RIGHT, BTN_SHOULDER_L, BTN_SHOULDER_R, BTN_C_UP, BTN_C_DOWN, BTN_C_LEFT, BTN_C_RIGHT]
  simpa using h

/-- The native word produced by `decodeButtons` uses only the 14 defined bits. -/
theorem decodeButtons_lt (c : Nat) : decodeButtons c < 16384 := by
  have h : decodeButtons c < 2 ^ 14 := by
    simp only [decodeButtons]
    repeat' apply Nat.or_lt_two_pow
    all_goals split <;> norm_num
  simpa using h

/-- Round trip native → canonical → native restricts to the 14 defined bits. -/
theorem decode_encode (b : Nat) : decodeButtons (encodeButtons b) = b &&& 16383 := by
  apply Nat.eq_of_testBit_eq
  intro i
  rcases Nat.lt_or_ge i 14 with hi | hi
  · interval_cases i <;>
      simp only [dec_tb0, dec_tb1, dec_tb2, dec_tb3, dec_tb4, dec_tb5, dec_tb6, dec_tb7, dec_tb8, dec_tb9, dec_tb10, dec_tb11, dec_tb12, dec_tb13, enc_tb0, enc_tb1, enc_tb2, enc_tb3, enc_tb4, enc_tb5, enc_tb6, enc_tb7, enc_tb8, enc_tb9, enc_tb10, enc_tb11, enc_tb12, enc_tb13, Nat.testBit_and] <;>
      norm_num [Nat.testBit_to_div_mod]
  · rw [testBit_high _ i (decodeButtons_lt _) hi, Nat.testBit_and,
      testBit_high 16383 i (by norm_num) hi]
    simp

/-- Round trip canonical → native → canonical restricts to the 14 defined bits. -/
theorem encode_decode (c : Nat) : encodeButtons (decodeButtons c) = c &&& 16383 := by
  apply Nat.eq_of_testBit_eq
  intro i
  rcases Nat.lt_or_ge i 14 with hi | hi
  · interval_cases i <;>
      simp only [dec_tb0, dec_tb1, dec_tb2, dec_tb3, dec_tb4, dec_tb5, dec_tb6, dec_tb7, dec_tb8, dec_tb9, dec_tb10, dec_tb11, dec_tb12, dec_tb13, enc_tb0, enc_tb1, enc_tb2, enc_tb3, enc_tb4, enc_tb5, enc_tb6, enc_tb7, enc_tb8, enc_tb9, enc_tb10, enc_tb11, enc_tb12, enc_tb13, Nat.testBit_and] <;>
      norm_num [Nat.testBit_to_div_mod]
  · rw [testBit_high _ i (encodeButtons_lt _) hi, Nat.testBit_and,
      testBit_high 16383 i (by norm_num) hi]
    simp

/-- `encodeButtons` ignores native bits outside the 14 defined ones. -/
theorem encode_mask (b : Nat) : encodeButtons (b &&& 16383) = encodeButtons b := by
  simp only [encodeButtons, mask0, mask1, mask2, mask3, mask4, mask5, mask6, mask7, mask8, mask9, mask10, mask11, mask12, mask13, Nat.testBit_and]
  norm_num [Nat.testBit_to_div_mod]

/-- `decodeButtons` ignores canonical bits outside the 14 defined ones. -/
theorem decode_mask (c : Nat) : decodeButtons (c &&& 16383) = decodeButtons c := by
  simp only [decodeButtons, maskBtnA, maskBtnB, maskBtnZ, maskBtnStart, maskBtnDU, maskBtnDD, maskBtnDL, maskBtnDR, maskBtnSL, maskBtnSR, maskBtnCU, maskBtnCD, maskBtnCL, maskBtnCR, Nat.testBit_and]
  norm_num [Nat.testBit_to_div_mod]

/-! ## Controller input records (`Emulation.cpp`)

`ControllerInput` (lines 175-185): the 32-byte per-player wire record
(`buttons` is a `uint16_t`, the sticks are `int8_t`, triggers `uint8_t`;
the remaining bytes of the 32-byte slot are padding). -/

structure ControllerInput where
  buttons : Nat
  stick_x : Int
  stick_y : Int
  trigger_r : Nat
  trigger_l : Nat
  reserved0 : Nat
  reserved1 : Nat
deriving Repr, DecidableEq

/-- The `memset`-zeroed record. -/
def zeroInput : ControllerInput :=
  { buttons := 0, stick_x := 0, stick_y := 0, trigger_r := 0, trigger_l := 0,
    reserved0 := 0, reserved1 := 0 }

/-- Embeds `GetControllerInputs` (`Emulation.cpp` lines 222-277) for the
local player's slot.  The mupen64plus input API is an oracle: `connected`
is the conjunction of `GetStatus` succeeding and reporting a connected
controller, `readOk` is `ReadController` succeeding, and
`buttons`, `x_axis`, `y_axis` are the values it reported.  When either
oracle fails the record stays `memset`-zero. -/
def GetControllerInputs (connected readOk : Bool) (buttons : Nat) (x_axis y_axis : Int) :
    ControllerInput :=
  if connected && readOk then
    { buttons := encodeButtons buttons
      stick_x := x_axis
      stick_y := y_axis
      trigger_l := if buttons &&& 0x0200 ≠ 0 then 255 else 0
      trigger_r := if buttons &&& 0x0100 ≠ 0 then 255 else 0
      reserved0 := 0
      reserved1 := 0 }
  else zeroInput

/-- The emulator-side virtual controller.  The mupen64plus `Input` API of
the source (`Emulation.cpp` lines 207-214) exposes `SetButtonState` and
`SetAxisValue` only; the trigger registers carried here exist so that the
spec's statement about trigger writes can be expressed, and no API call of
the source can touch them. -/
structure VirtualController where
  buttons : Nat
  axisX : Int
  axisY : Int
  triggerL : Nat
  triggerR : Nat
deriving Repr, DecidableEq

/-- Embeds `ApplyControllerInputs` (`Emulation.cpp` lines 280-321) acting
on one player's virtual controller: `SetButtonState` with the decoded
native word, then `SetAxisValue` for the X and Y axes. -/
def ApplyControllerInputs (input : ControllerInput) (ctrl : VirtualController) :
    VirtualController :=
  { ctrl with
    buttons := decodeButtons input.buttons
    axisX := input.stick_x
    axisY := input.stick_y }

/-! ## The state buffer pool (`Netplay.cpp` lines 219-285)

Buffers are modelled by numeric identities (the pointer values of the
source).  `malloc` is an oracle: `allocOk` tells whether an allocation
attempted by `getBuffer` succeeds, in which case the pool's `nextId`
plays the role of the fresh pointer.  The constructor pre-allocates one
buffer (id `0`) into the free list. -/

structure StateBufferPool where
  freeBuffers : List Nat
  usedBuffers : List Nat
  bufferSize : Nat
  maxBuffers : Nat
  nextId : Nat
deriving Repr, DecidableEq

/-- The `StateBufferPool` constructor (`Netplay.cpp` lines 221-226);
the source defaults are `bufferSize = 8 * 1024 * 1024`, `maxBuffers = 4`. -/
def mkStateBufferPool (bufferSize maxBuffers : Nat) : StateBufferPool :=
  { freeBuffers := [0], usedBuffers := [], bufferSize := bufferSize,
    maxBuffers := maxBuffers, nextId := 1 }

/-- `StateBufferPool::getBuffer` (`Netplay.cpp` lines 239-257): pop the
back of the free list if possible; otherwise allocate a fresh buffer when
fewer than `maxBuffers` are in use; otherwise fail. -/
def StateBufferPool.getBuffer (pool : StateBufferPool) (allocOk : Bool) :
    Option Nat × StateBufferPool :=
  match pool.freeBuffers.getLast? with
  | some buffer =>
    (some buffer, { pool with freeBuffers := pool.freeBuffers.dropLast,
                              usedBuffers := pool.usedBuffers ++ [buffer] })
  | none =>
    if pool.usedBuffers.length < pool.maxBuffers then
      if allocOk then
        (some pool.nextId, { pool with usedBuffers := pool.usedBuffers ++ [pool.nextId],
                                       nextId := pool.nextId + 1 })
      else (none, pool)
    else (none, pool)

/-- `StateBufferPool::releaseBuffer` (`Netplay.cpp` lines 260-270): move
the first matching entry of the used list back to the free list; unknown
buffers are a no-op. -/
def StateBufferPool.releaseBuffer (pool : StateBufferPool) (buffer : Nat) : StateBufferPool :=
  if pool.usedBuffers.contains buffer then
    { pool with usedBuffers := pool.usedBuffers.erase buffer,
                freeBuffers := pool.freeBuffers ++ [buffer] }
  else pool

/-- With allocation succeeding, `getBuffer` fails exactly when the free
list is empty and the in-use count has reached `maxBuffers`. -/
theorem getBuffer_none_iff (pool : StateBufferPool) :
    (pool.getBuffer true).1 = none ↔
      pool.freeBuffers = [] ∧ pool.maxBuffers ≤ pool.usedBuffers.length := by
  unfold StateBufferPool.getBuffer
  cases h : pool.freeBuffers.getLast? with
  | some b =>
    simp only [h]
    constructor
    · intro hc
      exact absurd hc (by simp)
    · intro ⟨he, _⟩
      rw [he] at h
      simp at h
  | none =>
    rw [List.getLast?_eq_none_iff] at h
    simp only [List.getLast?_eq_none_iff.mpr h]
    by_cases hlt : pool.usedBuffers.length < pool.maxBuffers
    · simp [hlt, h]
    · simp [hlt, h]
      omega

/-! ## State serialization (`Netplay.cpp` lines 114-197 and 564-708) -/

def ROLLBACK_STATE_MAGIC : Nat := 0x52424B53

def ROLLBACK_STATE_VERSION : Nat := 1

/-- `sizeof(RollbackStateHeader)`: nine packed `uint32_t` fields. -/
def sizeofRollbackStateHeader : Nat := 36

/-- The serialized state header (`Netplay.cpp` lines 119-128). -/
structure RollbackStateHeader where
  magic : Nat
  version : Nat
  frame : Nat
  uncompressedSize : Nat
  compressedSize : Nat
  randState : Nat
  inputSequence : Nat
  reserved0 : Nat
  reserved1 : Nat
deriving Repr, DecidableEq

/-- One round of the reflected CRC-32 shift with polynomial `0xEDB88320`. -/
def crc32Round (c : Nat) : Nat :=
  if c % 2 = 1 then (c / 2) ^^^ 0xEDB88320 else c / 2

/-- Fold one byte into a running CRC-32 value. -/
def crc32UpdateByte (crc b : Nat) : Nat :=
  crc32Round (crc32Round (crc32Round (crc32Round
    (crc32Round (crc32Round (crc32Round (crc32Round (crc ^^^ b % 256))))))))

/-- zlib's `crc32(0L, data, size)` (`CalculateChecksum`, `Netplay.cpp`
lines 134-136): the standard reflected CRC-32 over the byte list. -/
def crc32 (data : List Nat) : Nat :=
  (data.foldl crc32UpdateByte 0xFFFFFFFF) ^^^ 0xFFFFFFFF

/-- The backward scan of `SaveEmulatorState` (`Netplay.cpp` lines
597-603), counting down from `i`: the loop body inspects `buf[i-1]` and
stops at the first non-zero byte; falling off the loop leaves the initial
value `maxSize` in place. -/
def scanLastNonzeroFrom (buf : List Nat) (maxSize : Nat) : Nat → Nat
  | 0 => maxSize
  | i + 1 => if buf.getD i 0 ≠ 0 then i + 1 else scanLastNonzeroFrom buf maxSize i

/-- `actualUncompressedSize` as computed by `SaveEmulatorState`. -/
def scanLastNonzero (buf : List Nat) (maxSize : Nat) : Nat :=
  scanLastNonzeroFrom buf maxSize maxSize

/-- `CompressData` (`Netplay.cpp` lines 139-170): `deflate` is an oracle
for the zlib DEFLATE (level 1) stream of the input bytes; the call
succeeds (reaches `Z_STREAM_END`) exactly when that stream fits in the
`dstLen` bytes of output room. -/
def CompressData (deflate : List Nat → List Nat) (src : List Nat) (dstLen : Nat) :
    Option (List Nat) :=
  let out := deflate src
  if out.length ≤ dstLen then some out else none

/-- A successful save as surfaced through the out-parameters of
`SaveEmulatorState`: the header written at the front of the pool buffer,
the compressed payload after it, `*len` and `*checksum`. -/
structure SaveResult where
  header : RollbackStateHeader
  payload : List Nat
  len : Nat
  checksum : Nat
deriving Repr, DecidableEq

/-- `SaveEmulatorState` (`Netplay.cpp` lines 564-641).  Oracles:
`allocOk` for `malloc` inside the pool, `emuSave` for
`M64CMD_STATE_SAVE` (`none` = failure, otherwise the content the emulator
wrote into the `bufferSize - sizeof(header) - 1024` byte region at offset
`sizeof(header) + 1024`), `deflate` for zlib, `rngState` for
`GetEmulatorRngState`, and `g_currentInputSequence` for the global input
sequence counter.  The performance-metric bookkeeping of the source
(timers and log messages) has no bearing on the outputs and is omitted. -/
def SaveEmulatorState (pool : StateBufferPool) (allocOk : Bool)
    (emuSave : Option (List Nat)) (deflate : List Nat → List Nat)
    (rngState : Nat) (g_currentInputSequence : Nat) (frame : Nat) :
    Option SaveResult × StateBufferPool :=
  match pool.getBuffer allocOk with
  | (none, pool1) => (none, pool1)
  | (some stateBuffer, pool1) =>
    match emuSave with
    | none => (none, pool1.releaseBuffer stateBuffer)
    | some savedBytes =>
      let maxUncompressedSize := pool.bufferSize - sizeofRollbackStateHeader - 1024
      let actualUncompressedSize := scanLastNonzero savedBytes maxUncompressedSize
      let tempBuffer := savedBytes.take actualUncompressedSize
      match CompressData deflate tempBuffer 1024 with
      | none => (none, pool1.releaseBuffer stateBuffer)
      | some compressed =>
        (some { header := { magic := ROLLBACK_STATE_MAGIC
                            version := ROLLBACK_STATE_VERSION
                            frame := frame
                            uncompressedSize := actualUncompressedSize
                            compressedSize := compressed.length
                            randState := rngState
                            inputSequence := g_currentInputSequence
                            reserved0 := 0
                            reserved1 := 0 }
                payload := compressed
                len := sizeofRollbackStateHeader + compressed.length
                checksum := crc32 tempBuffer }, pool1)

/-- Little-endian 32-bit read at byte offset `off` (how the
`reinterpret_cast` to `RollbackStateHeader*` reads a field). -/
def le32 (bytes : List Nat) (off : Nat) : Nat :=
  bytes.getD off 0 % 256 + 256 * (bytes.getD (off + 1) 0 % 256) +
  65536 * (bytes.getD (off + 2) 0 % 256) + 16777216 * (bytes.getD (off + 3) 0 % 256)

/-- What `LoadEmulatorState` left behind: the returned flag, whether the
`M64CMD_STATE_LOAD` emulator callback ran, the global input sequence
counter, and the pool. -/
structure LoadOutcome where
  success : Bool
  emuLoadCalled : Bool
  inputSequence : Nat
  pool : StateBufferPool
deriving Repr, DecidableEq

/-- `LoadEmulatorState` (`Netplay.cpp` lines 644-708).  The input buffer
is `bytes` (read with `le32` at the header offsets: magic 0, version 4,
uncompressedSize 12, compressedSize 16, inputSequence 24) together with
the separately passed length `len`; `bufferNull` models a null buffer
pointer.  Oracles: `allocOk` for the pool's `malloc`, `inflate` for
`DecompressData` applied to the payload bytes and the destination room,
`emuLoadOk` for `M64CMD_STATE_LOAD`. -/
def LoadEmulatorState (pool : StateBufferPool) (allocOk : Bool)
    (inflate : List Nat → Nat → Option (List Nat)) (emuLoadOk : Bool)
    (g_currentInputSequence : Nat) (bufferNull : Bool) (bytes : List Nat) (len : Int) :
    LoadOutcome :=
  if bufferNull || len ≤ (sizeofRollbackStateHeader : Int) then
    { success := false, emuLoadCalled := false,
      inputSequence := g_currentInputSequence, pool := pool }
  else if le32 bytes 0 ≠ ROLLBACK_STATE_MAGIC then
    { success := false, emuLoadCalled := false,
      inputSequence := g_currentInputSequence, pool := pool }
  else if le32 bytes 4 ≠ ROLLBACK_STATE_VERSION then
    { success := false, emuLoadCalled := false,
      inputSequence := g_currentInputSequence, pool := pool }
  else if le32 bytes 16 + sizeofRollbackStateHeader > len.toNat then
    { success := false, emuLoadCalled := false,
      inputSequence := g_currentInputSequence, pool := pool }
  else
    match pool.getBuffer allocOk with
    | (none, pool1) =>
      { success := false, emuLoadCalled := false,
        inputSequence := g_currentInputSequence, pool := pool1 }
    | (some uncompressedBuffer, pool1) =>
      match inflate ((bytes.drop sizeofRollbackStateHeader).take (le32 bytes 16))
              (le32 bytes 12) with
      | none =>
        { success := false, emuLoadCalled := false,
          inputSequence := g_currentInputSequence,
          pool := pool1.releaseBuffer uncompressedBuffer }
      | some _ =>
        if emuLoadOk then
          { success := true, emuLoadCalled := true,
            inputSequence := le32 bytes 24,
            pool := pool1.releaseBuffer uncompressedBuffer }
        else
          { success := false, emuLoadCalled := true,
            inputSequence := g_currentInputSequence,
            pool := pool1.releaseBuffer uncompressedBuffer }

/-! ## Session lifecycle (`Netplay.cpp` lines 388-434, `RollbackNetplay.cpp`) -/

/-- The module-level state of `Netplay.cpp` that
`CoreInitRollbackNetplay` reads and writes. -/
structure NetplayGlobals where
  hasInitNetplay : Bool
  hasInitRollbackNetplay : Bool
  rollbackLocalPlayer : Int
  rollbackMaxPlayers : Int
  lastError : Option String
deriving Repr, DecidableEq

/-- `CoreInitRollbackNetplay` (`Netplay.cpp` lines 388-434).  The call
into `RollbackNetplay::Initialize` happens in a different translation
unit and is abstracted by the oracle `implInitOk`; the returned flag and
the updated globals are modelled exactly, including which branches set an
error message through `CoreSetError` and which do not. -/
def CoreInitRollbackNetplay (g : NetplayGlobals) (player maxPlayers : Int)
    (implInitOk : Bool) : Bool × NetplayGlobals :=
  if g.hasInitNetplay then
    (false,
     { g with lastError := some "Cannot initialize rollback netplay when standard netplay is active" })
  else if g.hasInitRollbackNetplay then
    (true, g)
  else if player < 1 || player > 4 || maxPlayers < 2 || maxPlayers > 4 then
    (false,
     { g with lastError := some "Invalid player number or max players for rollback netplay" })
  else if implInitOk then
    (true, { g with rollbackLocalPlayer := player, rollbackMaxPlayers := maxPlayers,
                    hasInitRollbackNetplay := true })
  else
    (false, { g with rollbackLocalPlayer := player, rollbackMaxPlayers := maxPlayers,
                     lastError := some "Failed to initialize rollback netplay" })

/-- The per-instance state of `RollbackNetplayImpl`
(`RollbackNetplay.cpp` lines 395-445) that the embedded operations
touch. -/
structure RollbackImplState where
  initialized : Bool
  localPlayer : Int
  maxPlayers : Int
  currentFrame : Int
  currentInputSequence : Nat
  lastSavedFrameInputSequence : Nat
deriving Repr, DecidableEq

/-- The freshly constructed `RollbackNetplayImpl`. -/
def rollbackImplInit0 : RollbackImplState :=
  { initialized := false, localPlayer := 0, maxPlayers := 0, currentFrame := 0,
    currentInputSequence := 0, lastSavedFrameInputSequence := 0 }

/-- Result of `RollbackNetplayImpl::Initialize`: the returned flag, the
message passed to `CoreSetError` (if any), the instance state, and
whether the static `instancePtr` points at this instance afterwards. -/
structure ImplInitResult where
  ok : Bool
  errorSet : Option String
  state : RollbackImplState
  instancePtrTaken : Bool
deriving Repr, DecidableEq

/-- `RollbackNetplayImpl::Initialize` (`RollbackNetplay.cpp` lines
162-252).  `instancePtrBusy` says whether the static `instancePtr`
already holds another live instance; the GGPO calls are oracles
(`ggpoStartOk`, `addPlayersOk`, `setFrameDelayOk`).  Note the first
branch: re-initializing an already-initialized instance returns `true`
without touching anything and without reporting an error. -/
def implInitialize (st : RollbackImplState) (instancePtrBusy : Bool)
    (player numPlayers : Int)
    (ggpoStartOk addPlayersOk setFrameDelayOk : Bool) : ImplInitResult :=
  if st.initialized then
    { ok := true, errorSet := none, state := st, instancePtrTaken := instancePtrBusy }
  else if instancePtrBusy then
    { ok := false, errorSet := some "RollbackNetplay: Another instance is already active",
      state := st, instancePtrTaken := true }
  else
    let st1 := { st with localPlayer := player, maxPlayers := numPlayers }
    if !ggpoStartOk then
      { ok := false, errorSet := some "RollbackNetplay: Failed to start GGPO session",
        state := st1, instancePtrTaken := false }
    else if !addPlayersOk then
      { ok := false, errorSet := some "RollbackNetplay: Failed to add player",
        state := st1, instancePtrTaken := false }
    else if !setFrameDelayOk then
      { ok := false, errorSet := some "RollbackNetplay: Failed to set frame delay",
        state := st1, instancePtrTaken := false }
    else
      { ok := true, errorSet := none,
        state := { st1 with initialized := true, currentFrame := 0 },
        instancePtrTaken := true }

/-- `RollbackNetplayImpl::AddLocalInput` (`RollbackNetplay.cpp` lines
276-293): bail out while uninitialized, otherwise bump
`currentInputSequence` (a `uint32_t`) and hand the input to
`ggpo_add_local_input`, whose verdict `ggpoAddOk` becomes the return
value. -/
def implAddLocalInput (st : RollbackImplState) (sessionPresent : Bool)
    (ggpoAddOk : Bool) : Bool × RollbackImplState :=
  if !(st.initialized && sessionPresent) then
    (false, st)
  else
    (ggpoAddOk,
     { st with currentInputSequence := (st.currentInputSequence + 1) % 4294967296 })

/-! ## Rollback metrics (`RollbackNetplay.cpp` lines 118-160, 353-388)

`avgRollbackFrames` is a C `float` in the source; it is modelled as the
exact rational `rollbackFrames / totalRollbacks`, which no claim below
depends on. -/

structure RollbackMetrics where
  rollbackFrames : Int
  totalRollbacks : Int
  predictedFrames : Int
  maxRollbackFrames : Int
  avgRollbackFrames : Rat
  pingMs : Int
  remoteFrameAdvantage : Int
deriving Repr, DecidableEq

/-- `RollbackMetrics::Reset` (and the constructor's initial values). -/
def metricsReset : RollbackMetrics :=
  { rollbackFrames := 0, totalRollbacks := 0, predictedFrames := 0,
    maxRollbackFrames := 0, avgRollbackFrames := 0, pingMs := 0,
    remoteFrameAdvantage := 0 }

/-- The GGPO events distinguished by `UpdateMetrics` and
`OnEvent_Callback`; `timesync` carries `u.timesync.frames_ahead`. -/
inductive GGPOEventCode where
  | connectionInterrupted
  | connectionResumed
  | connectedToPeer
  | disconnectedFromPeer
  | timesync (framesAhead : Int)
  | runningOrOther
deriving Repr, DecidableEq

/-- `RollbackNetplayImpl::UpdateMetrics` (`RollbackNetplay.cpp` lines
353-388): the event switch (connect and disconnect both call
`metrics.Reset()`, timesync stores the frame advantage), then the
`ggpo_get_network_stats` probe — the oracle `stats` carries
`(network.ping, timesync.remote_frames_behind)` when the probe
succeeds. -/
def UpdateMetrics (m : RollbackMetrics) (e : GGPOEventCode)
    (stats : Option (Int × Int)) : RollbackMetrics :=
  let m1 := match e with
    | .connectedToPeer => metricsReset
    | .disconnectedFromPeer => metricsReset
    | .timesync fa => { m with remoteFrameAdvantage := fa }
    | _ => m
  match stats with
  | some (ping, remoteFramesBehind) =>
    { m1 with pingMs := ping, predictedFrames := remoteFramesBehind }
  | none => m1

/-- `RollbackNetplayImpl::OnEvent_Callback` (`RollbackNetplay.cpp` lines
118-160) acting on the metrics and the `rollbackJustOccurred` flag:
`UpdateMetrics` first, then the timesync rollback detection that bumps
the rollback counters. -/
def OnEvent_Callback (m : RollbackMetrics) (rollbackJustOccurred : Bool)
    (e : GGPOEventCode) (stats : Option (Int × Int)) : RollbackMetrics × Bool :=
  let m1 := UpdateMetrics m e stats
  match e with
  | .timesync framesAhead =>
    if framesAhead > 0 then
      let m2 := { m1 with rollbackFrames := m1.rollbackFrames + framesAhead,
                          totalRollbacks := m1.totalRollbacks + 1 }
      let m3 := if framesAhead > m2.maxRollbackFrames
                then { m2 with maxRollbackFrames := framesAhead } else m2
      ({ m3 with avgRollbackFrames :=
          (m3.rollbackFrames : Rat) / (m3.totalRollbacks : Rat) }, true)
    else (m1, rollbackJustOccurred)
  | _ => (m1, rollbackJustOccurred)

/-- A sequence of processed network events: `OnEvent_Callback` folded
over the queue in arrival order. -/
def processEvents (m : RollbackMetrics) (flag : Bool)
    (events : List (GGPOEventCode × Option (Int × Int))) : RollbackMetrics × Bool :=
  events.foldl (fun acc ev => OnEvent_Callback acc.1 acc.2 ev.1 ev.2) (m, flag)

/-! ## Helper lemmas about the backward scan and the save path -/

/-- If the first `i` region bytes are all zero, the scan falls off the
loop and keeps the initial value. -/
theorem scanFrom_all_zero (buf : List Nat) (maxSize : Nat) :
    ∀ i, (∀ k, k < i → buf.getD k 0 = 0) → scanLastNonzeroFrom buf maxSize i = maxSize := by
  intro i
  induction i with
  | zero => intro _; rfl
  | succ i ih =>
    intro h
    unfold scanLastNonzeroFrom
    rw [if_neg (by simpa using h i (by omega))]
    exact ih fun k hk => h k (by omega)

/-- If some region byte below `i` is non-zero, the scan returns the
1-based position of the last such byte. -/
theorem scanFrom_last_nonzero (buf : List Nat) (maxSize : Nat) :
    ∀ i, (∃ k, k < i ∧ buf.getD k 0 ≠ 0) →
      ∃ j, j < i ∧ scanLastNonzeroFrom buf maxSize i = j + 1 ∧ buf.getD j 0 ≠ 0 ∧
        ∀ k, j < k → k < i → buf.getD k 0 = 0 := by
  intro i
  induction i with
  | zero => intro ⟨k, hk, _⟩; omega
  | succ i ih =>
    intro ⟨k, hk, hnz⟩
    by_cases hi : buf.getD i 0 ≠ 0
    · refine ⟨i, by omega, ?_, hi, fun k h1 h2 => by omega⟩
      unfold scanLastNonzeroFrom
      rw [if_pos hi]
    · have hk' : k < i := by
        rcases Nat.lt_or_ge k i with h | h
        · exact h
        · have : k = i := by omega
          subst this
          exact absurd hnz hi
      obtain ⟨j, hj, hscan, hjz, htail⟩ := ih ⟨k, hk', hnz⟩
      refine ⟨j, by omega, ?_, hjz, ?_⟩
      · unfold scanLastNonzeroFrom
        rw [if_neg hi]
        exact hscan
      · intro k2 h1 h2
        rcases Nat.lt_or_ge k2 i with h3 | h3
        · exact htail k2 h1 h3
        · have : k2 = i := by omega
          subst this
          exact not_not.mp hi

/-- The fields a successful `SaveEmulatorState` hands back, in terms of
the region content and the oracles. -/
theorem save_success_fields (pool : StateBufferPool) (allocOk : Bool)
    (savedBytes : List Nat) (deflate : List Nat → List Nat)
    (rngState seq frame : Nat) (r : SaveResult) (pool' : StateBufferPool)
    (h : SaveEmulatorState pool allocOk (some savedBytes) deflate rngState seq frame
          = (some r, pool')) :
    r.header.uncompressedSize
        = scanLastNonzero savedBytes (pool.bufferSize - sizeofRollbackStateHeader - 1024) ∧
    r.checksum = crc32 (savedBytes.take
        (scanLastNonzero savedBytes (pool.bufferSize - sizeofRollbackStateHeader - 1024))) ∧
    r.payload = deflate (savedBytes.take
        (scanLastNonzero savedBytes (pool.bufferSize - sizeofRollbackStateHeader - 1024))) ∧
    r.header.magic = ROLLBACK_STATE_MAGIC ∧
    r.header.version = ROLLBACK_STATE_VERSION ∧
    r.header.compressedSize = r.payload.length ∧
    r.len = sizeofRollbackStateHeader + r.payload.length ∧
    r.header.inputSequence = seq := by
  unfold SaveEmulatorState at h
  rcases hg : pool.getBuffer allocOk with ⟨ob, pool1⟩
  rw [hg] at h
  cases ob with
  | none => simp at h
  | some stateBuffer =>
    simp only [CompressData] at h
    by_cases hlen :
        (deflate (savedBytes.take
          (scanLastNonzero savedBytes (pool.bufferSize - sizeofRollbackStateHeader - 1024)))).length
          ≤ 1024
    · simp only [hlen, if_true] at h
      obtain ⟨h1, _⟩ := Prod.mk.injEq .. ▸ h
      cases h
      simp
    · simp only [hlen, if_false] at h
      cases h

/-- A single processed event never decreases the three rollback counters
unless it is a connect or disconnect event (those reset the metrics). -/
theorem onEvent_counters_mono (m : RollbackMetrics) (flag : Bool) (e : GGPOEventCode)
    (stats : Option (Int × Int))
    (he : e ≠ GGPOEventCode.connectedToPeer)
    (he' : e ≠ GGPOEventCode.disconnectedFromPeer) :
    m.totalRollbacks ≤ (OnEvent_Callback m flag e stats).1.totalRollbacks ∧
    m.rollbackFrames ≤ (OnEvent_Callback m flag e stats).1.rollbackFrames ∧
    m.maxRollbackFrames ≤ (OnEvent_Callback m flag e stats).1.maxRollbackFrames := by
  cases e with
  | connectedToPeer => exact absurd rfl he
  | disconnectedFromPeer => exact absurd rfl he'
  | timesync fa =>
    by_cases hfa : fa > 0
    · cases stats with
      | none =>
        by_cases hmax : fa > m.maxRollbackFrames <;>
          simp [OnEvent_Callback, UpdateMetrics, hfa, hmax] <;> omega
      | some s =>
        by_cases hmax : fa > m.maxRollbackFrames <;>
          simp [OnEvent_Callback, UpdateMetrics, hfa, hmax] <;> omega
    · cases stats with
      | none => simp [OnEvent_Callback, UpdateMetrics, hfa]
      | some s => simp [OnEvent_Callback, UpdateMetrics, hfa]
  | connectionInterrupted =>
    cases stats with
    | none => simp [OnEvent_Callback, UpdateMetrics]
    | some s => simp [OnEvent_Callback, UpdateMetrics]
  | connectionResumed =>
    cases stats with
    | none => simp [OnEvent_Callback, UpdateMetrics]
    | some s => simp [OnEvent_Callback, UpdateMetrics]
  | runningOrOther =>
    cases stats with
    | none => simp [OnEvent_Callback, UpdateMetrics]
    | some s => simp [OnEvent_Callback, UpdateMetrics]

/-! ## Claim theorems -/

/-- A globals state in which a rollback session is already active and no
error message is pending. -/
def activeRollbackGlobals : NetplayGlobals :=
  { hasInitNetplay := false, hasInitRollbackNetplay := true,
    rollbackLocalPlayer := 1, rollbackMaxPlayers := 2, lastError := none }

/-- Claim C1, counterexample: with a rollback session already active in
the process, a second `CoreInitRollbackNetplay` call returns success and
leaves the error sink untouched — it silently succeeds instead of
failing loudly. -/
theorem C1_counterexample :
    activeRollbackGlobals.hasInitRollbackNetplay = true ∧
    CoreInitRollbackNetplay activeRollbackGlobals 1 2 true = (true, activeRollbackGlobals) ∧
    activeRollbackGlobals.lastError = none := by
  decide

/-- Claim C1, amended: a call to initialize rollback netplay while a
rollback session is already active returns success without touching the
globals and without reporting an error (an idempotent no-op); only
initializing a fresh, not-yet-initialized implementation instance while
the static instance pointer holds another live instance fails loudly
with the AlreadyActive-style error. -/
theorem C1_amended :
    (∀ (g : NetplayGlobals) (player maxPlayers : Int) (implInitOk : Bool),
      g.hasInitNetplay = false → g.hasInitRollbackNetplay = true →
      CoreInitRollbackNetplay g player maxPlayers implInitOk = (true, g)) ∧
    (∀ (st : RollbackImplState) (player numPlayers : Int) (o1 o2 o3 : Bool),
      st.initialized = false →
      (implInitialize st true player numPlayers o1 o2 o3).ok = false ∧
      (implInitialize st true player numPlayers o1 o2 o3).errorSet
        = some "RollbackNetplay: Another instance is already active") := by
  constructor
  · intro g player maxPlayers implInitOk h1 h2
    simp [CoreInitRollbackNetplay, h1, h2]
  · intro st player numPlayers o1 o2 o3 h
    simp [implInitialize, h]

/-- Claim C1, witness for the amended theorem. -/
theorem C1_amended_witness :
    CoreInitRollbackNetplay activeRollbackGlobals 2 3 false = (true, activeRollbackGlobals) ∧
    (implInitialize rollbackImplInit0 true 1 2 true true true).ok = false :=
  ⟨C1_amended.1 activeRollbackGlobals 2 3 false rfl rfl,
   (C1_amended.2 rollbackImplInit0 1 2 true true true rfl).1⟩

/-- Claim C2: a load from a buffer whose magic is wrong, or whose version
is not 1, or whose advertised compressed size does not fit in the passed
length, fails, never reaches the emulator load callback, and leaves the
global input sequence counter and the buffer pool untouched. -/
theorem C2_load_rejects_malformed (pool : StateBufferPool) (allocOk : Bool)
    (inflate : List Nat → Nat → Option (List Nat)) (emuLoadOk : Bool)
    (seq : Nat) (bytes : List Nat) (len : Int)
    (h : le32 bytes 0 ≠ ROLLBACK_STATE_MAGIC ∨
         le32 bytes 4 ≠ ROLLBACK_STATE_VERSION ∨
         (sizeofRollbackStateHeader : Int) + (le32 bytes 16 : Int) > len) :
    LoadEmulatorState pool allocOk inflate emuLoadOk seq false bytes len
      = { success := false, emuLoadCalled := false, inputSequence := seq, pool := pool } := by
  by_cases h1 : len ≤ (sizeofRollbackStateHeader : Int)
  · simp [LoadEmulatorState, h1]
  · by_cases h2 : le32 bytes 0 = ROLLBACK_STATE_MAGIC
    · by_cases h3 : le32 bytes 4 = ROLLBACK_STATE_VERSION
      · have h4 : le32 bytes 16 + sizeofRollbackStateHeader > len.toNat := by
          rcases h with hh | hh | hh
          · exact absurd h2 hh
          · exact absurd h3 hh
          · simp only [sizeofRollbackStateHeader] at hh ⊢
            omega
        simp [LoadEmulatorState, h1, h2, h3, h4]
      · simp [LoadEmulatorState, h1, h2, h3]
    · simp [LoadEmulatorState, h1, h2]

/-- Claim C2, witness: an all-zero 40-byte buffer (magic `0x00000000`) is
rejected without side effects. -/
theorem C2_witness :
    LoadEmulatorState (mkStateBufferPool 1064 4) true (fun _ _ => none) true 7 false
        (List.replicate 40 0) 40
      = { success := false, emuLoadCalled := false, inputSequence := 7,
          pool := mkStateBufferPool 1064 4 } :=
  C2_load_rejects_malformed _ _ _ _ _ _ _ (Or.inl (by decide))

/-- Claim C4: the native→canonical map of `GetControllerInputs` and the
canonical→native map of `ApplyControllerInputs` follow the fixed native
bit table (`0x0001` DPad-R … `0x2000` C-U), are mutual inverses on the 14
defined bits, and both ignore all other source bits. -/
theorem C4_button_maps_mutual_inverse :
    (encodeButtons 0x0001 = BTN_DPAD_RIGHT ∧ encodeButtons 0x0002 = BTN_DPAD_LEFT ∧
     encodeButtons 0x0004 = BTN_DPAD_DOWN ∧ encodeButtons 0x0008 = BTN_DPAD_UP ∧
     encodeButtons 0x0010 = BTN_START ∧ encodeButtons 0x0020 = BTN_Z ∧
     encodeButtons 0x0040 = BTN_B ∧ encodeButtons 0x0080 = BTN_A ∧
     encodeButtons 0x0100 = BTN_SHOULDER_R ∧ encodeButtons 0x0200 = BTN_SHOULDER_L ∧
     encodeButtons 0x0400 = BTN_C_RIGHT ∧ encodeButtons 0x0800 = BTN_C_LEFT ∧
     encodeButtons 0x1000 = BTN_C_DOWN ∧ encodeButtons 0x2000 = BTN_C_UP) ∧
    (decodeButtons BTN_DPAD_RIGHT = 0x0001 ∧ decodeButtons BTN_DPAD_LEFT = 0x0002 ∧
     decodeButtons BTN_DPAD_DOWN = 0x0004 ∧ decodeButtons BTN_DPAD_UP = 0x0008 ∧
     decodeButtons BTN_START = 0x0010 ∧ decodeButtons BTN_Z = 0x0020 ∧
     decodeButtons BTN_B = 0x0040 ∧ decodeButtons BTN_A = 0x0080 ∧
     decodeButtons BTN_SHOULDER_R = 0x0100 ∧ decodeButtons BTN_SHOULDER_L = 0x0200 ∧
     decodeButtons BTN_C_RIGHT = 0x0400 ∧ decodeButtons BTN_C_LEFT = 0x0800 ∧
     decodeButtons BTN_C_DOWN = 0x1000 ∧ decodeButtons BTN_C_UP = 0x2000) ∧
    (∀ b : Nat, decodeButtons (encodeButtons b) = b &&& 0x3FFF) ∧
    (∀ c : Nat, encodeButtons (decodeButtons c) = c &&& 0x3FFF) ∧
    (∀ b : Nat, encodeButtons (b &&& 0x3FFF) = encodeButtons b) ∧
    (∀ c : Nat, decodeButtons (c &&& 0x3FFF) = decodeButtons c) :=
  ⟨by decide, by decide, decode_encode, encode_decode, encode_mask, decode_mask⟩

/-- A record with both shoulder buttons held (as produced by the input
encoder for native word `0x0300`). -/
def shoulderHeldInput : ControllerInput :=
  { buttons := BTN_SHOULDER_L ||| BTN_SHOULDER_R, stick_x := 0, stick_y := 0,
    trigger_r := 255, trigger_l := 255, reserved0 := 0, reserved1 := 0 }

/-- A virtual controller with everything released. -/
def zeroVirtualController : VirtualController :=
  { buttons := 0, axisX := 0, axisY := 0, triggerL := 0, triggerR := 0 }

/-- Claim C5, counterexample: applying a record whose shoulder bits are
held writes no `0xFF` trigger value to the emulator's virtual controller
— the trigger registers still read `0` afterwards (the apply path of the
source calls only `SetButtonState` and `SetAxisValue`). -/
theorem C5_counterexample :
    shoulderHeldInput.buttons &&& BTN_SHOULDER_L ≠ 0 ∧
    shoulderHeldInput.buttons &&& BTN_SHOULDER_R ≠ 0 ∧
    (ApplyControllerInputs shoulderHeldInput zeroVirtualController).triggerL ≠ 0xFF ∧
    (ApplyControllerInputs shoulderHeldInput zeroVirtualController).triggerR ≠ 0xFF ∧
    (ApplyControllerInputs shoulderHeldInput zeroVirtualController).triggerL = 0 ∧
    (ApplyControllerInputs shoulderHeldInput zeroVirtualController).triggerR = 0 := by
  decide

/-- Claim C5, amended: the trigger bytes are derived from the shoulder
bits on the encode side — `GetControllerInputs` stores `0xFF` in a
trigger byte of the 32-byte record exactly when the corresponding
shoulder bit of the record is held, and `0` otherwise — while the apply
operation forwards the shoulder bits inside the button word and leaves
the virtual controller's trigger values unchanged. -/
theorem C5_amended :
    (∀ (connected readOk : Bool) (b : Nat) (x y : Int),
      (GetControllerInputs connected readOk b x y).trigger_l
        = (if (GetControllerInputs connected readOk b x y).buttons &&& BTN_SHOULDER_L ≠ 0
           then 255 else 0) ∧
      (GetControllerInputs connected readOk b x y).trigger_r
        = (if (GetControllerInputs connected readOk b x y).buttons &&& BTN_SHOULDER_R ≠ 0
           then 255 else 0)) ∧
    (∀ (input : ControllerInput) (ctrl : VirtualController),
      (ApplyControllerInputs input ctrl).triggerL = ctrl.triggerL ∧
      (ApplyControllerInputs input ctrl).triggerR = ctrl.triggerR) := by
  constructor
  · intro connected readOk b x y
    by_cases h : connected && readOk
    · simp only [GetControllerInputs, h, if_true]
      constructor
      · simp only [maskBtnSL, enc_tb8, mask9]
      · simp only [maskBtnSR, enc_tb9, mask8]
    · simp [GetControllerInputs, h, zeroInput]
  · intro input ctrl
    exact ⟨rfl, rfl⟩

/-- Claim C7: with a pool capped at one resident buffer, the first
acquire succeeds, a second acquire while the buffer is held fails without
blocking, and a retry after release succeeds; in general (allocation
permitting) acquire fails exactly when the free list is empty and the
number of buffers in use has reached the maximum. -/
theorem C7_pool_exhaustion :
    ((mkStateBufferPool 8388608 1).getBuffer true).1 = some 0 ∧
    (((mkStateBufferPool 8388608 1).getBuffer true).2.getBuffer true).1 = none ∧
    (((((mkStateBufferPool 8388608 1).getBuffer true).2.getBuffer true).2.releaseBuffer
        0).getBuffer true).1 = some 0 ∧
    (∀ pool : StateBufferPool, (pool.getBuffer true).1 = none ↔
      pool.freeBuffers = [] ∧ pool.maxBuffers ≤ pool.usedBuffers.length) :=
  ⟨by decide, by decide, by decide, getBuffer_none_iff⟩

/-- Claim C10: on an initialized session every `AddLocalInput` call bumps
the input sequence counter by exactly one (as a `uint32_t`) before the
input is handed to GGPO, and hands back GGPO's verdict without restoring
the counter when the submission fails. -/
theorem C10_addLocalInput_increments (st : RollbackImplState) (ggpoAddOk : Bool)
    (h : st.initialized = true) :
    implAddLocalInput st true ggpoAddOk
      = (ggpoAddOk,
         { st with currentInputSequence := (st.currentInputSequence + 1) % 4294967296 }) := by
  simp [implAddLocalInput, h]

/-- Claim C10, witness: a rejected submission on an initialized session
still leaves the counter incremented. -/
theorem C10_witness :
    implAddLocalInput { rollbackImplInit0 with initialized := true } true false
      = (false, { rollbackImplInit0 with initialized := true, currentInputSequence := 1 }) :=
  C10_addLocalInput_increments { rollbackImplInit0 with initialized := true } false rfl

/-- Claim C3: on every successful save the checksum out-parameter is the
CRC-32 of the uncompressed payload — the bytes the emulator save callback
wrote, truncated at the recorded `uncompressed_size`, before
compression. -/
theorem C3_checksum_uncompressed (pool : StateBufferPool) (allocOk : Bool)
    (savedBytes : List Nat) (deflate : List Nat → List Nat)
    (rngState seq frame : Nat) (r : SaveResult) (pool' : StateBufferPool)
    (h : SaveEmulatorState pool allocOk (some savedBytes) deflate rngState seq frame
          = (some r, pool')) :
    r.checksum = crc32 (savedBytes.take r.header.uncompressedSize) ∧
    r.checksum = crc32 (savedBytes.take
      (scanLastNonzero savedBytes (pool.bufferSize - sizeofRollbackStateHeader - 1024))) := by
  obtain ⟨h1, h2, -⟩ :=
    save_success_fields pool allocOk savedBytes deflate rngState seq frame r pool' h
  rw [h1]
  exact ⟨h2, h2⟩

/-- Claim C3, witness: a concrete successful save whose checksum is the
CRC-32 of the truncated uncompressed bytes. -/
theorem C3_witness : ∃ (r : SaveResult) (pool' : StateBufferPool),
    SaveEmulatorState (mkStateBufferPool 1064 4) true (some [1, 2, 3, 0])
        (fun _ => [9]) 0 0 0 = (some r, pool') ∧
    r.checksum = crc32 ([1, 2, 3, 0].take r.header.uncompressedSize) := by
  refine ⟨_, _, rfl, ?_⟩
  exact (C3_checksum_uncompressed (mkStateBufferPool 1064 4) true [1, 2, 3, 0]
    (fun _ => [9]) 0 0 0 _ _ rfl).1

/-- Claim C6, counterexample: the rollback counters do decrease across a
sequence of processed network events — a timesync-driven rollback
followed by a connected-to-peer event resets `total_rollbacks`,
`rollback_frames` and `max_rollback_frames` back to zero. -/
theorem C6_counterexample :
    (processEvents metricsReset false [(GGPOEventCode.timesync 3, none)]).1.totalRollbacks = 1 ∧
    (processEvents metricsReset false [(GGPOEventCode.timesync 3, none)]).1.rollbackFrames = 3 ∧
    (processEvents metricsReset false [(GGPOEventCode.timesync 3, none)]).1.maxRollbackFrames = 3 ∧
    (processEvents metricsReset false
        [(GGPOEventCode.timesync 3, none), (GGPOEventCode.connectedToPeer, none)]).1.totalRollbacks = 0 ∧
    (processEvents metricsReset false
        [(GGPOEventCode.timesync 3, none), (GGPOEventCode.connectedToPeer, none)]).1.rollbackFrames = 0 ∧
    (processEvents metricsReset false
        [(GGPOEventCode.timesync 3, none), (GGPOEventCode.connectedToPeer, none)]).1.maxRollbackFrames = 0 := by
  decide

/-- Claim C6, amended: across any sequence of processed network events
that contains no connected-to-peer and no disconnected-from-peer event
(which reset the whole metrics block), `total_rollbacks`,
`rollback_frames` and `max_rollback_frames` never decrease. -/
theorem C6_counters_monotone (m : RollbackMetrics) (flag : Bool)
    (events : List (GGPOEventCode × Option (Int × Int)))
    (h : ∀ ev ∈ events, ev.1 ≠ GGPOEventCode.connectedToPeer ∧
         ev.1 ≠ GGPOEventCode.disconnectedFromPeer) :
    m.totalRollbacks ≤ (processEvents m flag events).1.totalRollbacks ∧
    m.rollbackFrames ≤ (processEvents m flag events).1.rollbackFrames ∧
    m.maxRollbackFrames ≤ (processEvents m flag events).1.maxRollbackFrames := by
  induction events generalizing m flag with
  | nil => simp [processEvents]
  | cons ev rest ih =>
    have hev := h ev (List.mem_cons_self ev rest)
    have hstep := onEvent_counters_mono m flag ev.1 ev.2 hev.1 hev.2
    have hrest : ∀ e ∈ rest, e.1 ≠ GGPOEventCode.connectedToPeer ∧
        e.1 ≠ GGPOEventCode.disconnectedFromPeer :=
      fun e he => h e (List.mem_cons_of_mem ev he)
    have htail := ih (OnEvent_Callback m flag ev.1 ev.2).1
      (OnEvent_Callback m flag ev.1 ev.2).2 hrest
    have hunfold : processEvents m flag (ev :: rest)
        = processEvents (OnEvent_Callback m flag ev.1 ev.2).1
            (OnEvent_Callback m flag ev.1 ev.2).2 rest := by
      simp [processEvents]
    rw [hunfold]
    exact ⟨le_trans hstep.1 htail.1, le_trans hstep.2.1 htail.2.1,
           le_trans hstep.2.2 htail.2.2⟩

/-- Claim C6, witness for the amended theorem. -/
theorem C6_monotone_witness :
    metricsReset.totalRollbacks ≤
      (processEvents metricsReset false [(GGPOEventCode.timesync 2, none)]).1.totalRollbacks ∧
    metricsReset.rollbackFrames ≤
      (processEvents metricsReset false [(GGPOEventCode.timesync 2, none)]).1.rollbackFrames ∧
    metricsReset.maxRollbackFrames ≤
      (processEvents metricsReset false [(GGPOEventCode.timesync 2, none)]).1.maxRollbackFrames :=
  C6_counters_monotone metricsReset false [(GGPOEventCode.timesync 2, none)] (by decide)

/-- Claim C8: the `uncompressed_size` a successful save records is the
result of the backward scan — the 1-based position of the last non-zero
byte of the region the emulator saved into, or the full region size when
every region byte is zero. -/
theorem C8_uncompressed_size_scan (pool : StateBufferPool) (allocOk : Bool)
    (savedBytes : List Nat) (deflate : List Nat → List Nat)
    (rngState seq frame : Nat) (r : SaveResult) (pool' : StateBufferPool)
    (h : SaveEmulatorState pool allocOk (some savedBytes) deflate rngState seq frame
          = (some r, pool')) :
    ((∃ i, i < pool.bufferSize - sizeofRollbackStateHeader - 1024 ∧ savedBytes.getD i 0 ≠ 0) →
      ∃ j, j < pool.bufferSize - sizeofRollbackStateHeader - 1024 ∧
        r.header.uncompressedSize = j + 1 ∧ savedBytes.getD j 0 ≠ 0 ∧
        ∀ k, j < k → k < pool.bufferSize - sizeofRollbackStateHeader - 1024 →
          savedBytes.getD k 0 = 0) ∧
    ((∀ i, i < pool.bufferSize - sizeofRollbackStateHeader - 1024 → savedBytes.getD i 0 = 0) →
      r.header.uncompressedSize = pool.bufferSize - sizeofRollbackStateHeader - 1024) := by
  obtain ⟨h1, -⟩ :=
    save_success_fields pool allocOk savedBytes deflate rngState seq frame r pool' h
  rw [h1]
  constructor
  · intro ⟨i, hi, hnz⟩
    exact scanFrom_last_nonzero savedBytes _ _ ⟨i, hi, hnz⟩
  · intro hz
    exact scanFrom_all_zero savedBytes _ _ hz

/-- Claim C8, witness: on region content `[0, 5, 0, 0]` the recorded size
is `2`, the 1-based position of the last non-zero byte. -/
theorem C8_witness : ∃ (r : SaveResult) (pool' : StateBufferPool),
    SaveEmulatorState (mkStateBufferPool 1064 4) true (some [0, 5, 0, 0])
        (fun _ => [1]) 0 0 0 = (some r, pool') ∧
    ∃ j, j < 4 ∧ r.header.uncompressedSize = j + 1 ∧ [0, 5, 0, 0].getD j 0 ≠ 0 ∧
      ∀ k, j < k → k < 4 → [0, 5, 0, 0].getD k 0 = 0 := by
  refine ⟨_, _, rfl, ?_⟩
  exact (C8_uncompressed_size_scan (mkStateBufferPool 1064 4) true [0, 5, 0, 0]
    (fun _ => [1]) 0 0 0 _ _ rfl).1 ⟨1, by decide, by decide⟩

/-- Claim C9: the save path reserves 1024 bytes of room for the
compressed payload, so whenever the DEFLATE stream of the (truncated)
emulator state exceeds 1024 bytes the save fails and the acquired pool
buffer is released back to the pool. -/
theorem C9_compression_room (pool : StateBufferPool) (allocOk : Bool)
    (savedBytes : List Nat) (deflate : List Nat → List Nat) (rngState seq frame : Nat)
    (b : Nat) (pool1 : StateBufferPool)
    (hacq : pool.getBuffer allocOk = (some b, pool1))
    (hbig : 1024 < (deflate (savedBytes.take (scanLastNonzero savedBytes
        (pool.bufferSize - sizeofRollbackStateHeader - 1024)))).length) :
    SaveEmulatorState pool allocOk (some savedBytes) deflate rngState seq frame
      = (none, pool1.releaseBuffer b) := by
  unfold SaveEmulatorState
  rw [hacq]
  simp only [CompressData]
  rw [if_neg (Nat.not_le.mpr hbig)]

/-- Claim C9, witness: a 1025-byte DEFLATE stream does not fit, the save
fails, and the buffer is back on the free list. -/
theorem C9_witness :
    SaveEmulatorState (mkStateBufferPool 1064 4) true (some [1])
        (fun _ => List.replicate 1025 7) 0 0 0
      = (none, { freeBuffers := [0], usedBuffers := [], bufferSize := 1064,
                 maxBuffers := 4, nextId := 1 }) :=
  C9_compression_room (mkStateBufferPool 1064 4) true [1]
    (fun _ => List.replicate 1025 7) 0 0 0 0 _ rfl
    (by show (1024 : Nat) < (List.replicate 1025 7).length
        rw [List.length_replicate]
        omega)

end RMG
